import Mathlib

/-
Verification of the APC1 air-quality monitor firmware
(`src/lib/apc1/__init__.py` and `src/main.py`) against its design
specification.

The sensor component is embedded shallowly: the I2C bus is modelled as a
function `read : Nat → Nat → List Nat` giving, for a register address and
a requested byte count, the bytes the bus returns (`APC1.read_sensor_data`
wraps `readfrom_mem` and is otherwise pure).  Exceptions become `Except`
values; each decode also reports the list of `(address, numBytes)` read
requests it issued, so that claims about which I2C reads happen are
statable.  Register scales are modelled as rationals (the table holds the
scales 1 and 0.1; the one concrete decode checked below, 100 × 0.1 = 10,
is exact in IEEE double arithmetic as well, so the rational model agrees
with the Python float computation at every input used here).
-/

namespace APC1

/-- One row of the APC1 register map: name, register address, byte width,
scale, unit and human-readable description. -/
structure RegInfo where
  name : String
  address : Nat
  numBytes : Nat
  scale : ℚ
  unit : String
  description : String
deriving Repr, DecidableEq

/-- The fixed register map `APC1._REG_MAP` of the sensor class, one entry
per supported measurement. -/
def REG_MAP : List RegInfo := [
  ⟨"PM1.0", 0x04, 2, 1, "ug/m3", "PM1.0 Mass Concentration"⟩,
  ⟨"PM2.5", 0x06, 2, 1, "ug/m3", "PM2.5 Mass Concentration"⟩,
  ⟨"PM10", 0x08, 2, 1, "ug/m3", "PM10 Mass Concentration"⟩,
  ⟨"TVOC", 0x1C, 2, 1, "ppb", "TVOC output"⟩,
  ⟨"eCO2", 0x1E, 2, 1, "ppm", "Output in ppm CO2 equivalents"⟩,
  ⟨"T-comp", 0x22, 2, 1/10, "C", "Compensated Temperature"⟩,
  ⟨"RH-comp", 0x24, 2, 1/10, "%", "Compensated Relative Humidity"⟩,
  ⟨"T-raw", 0x26, 2, 1/10, "C", "Raw Temperature"⟩,
  ⟨"RH-raw", 0x28, 2, 1/10, "%", "Raw Relative Humidity"⟩,
  ⟨"AQI", 0x3A, 1, 1, "", "AQI according to TVOC value"⟩]

/-- The class method `APC1.get_reg_map`, which returns the register map. -/
def get_reg_map : List RegInfo := REG_MAP

/-- The default I2C device address `APC1._DEFAULT_DEVICE_ADDR`. -/
def DEFAULT_DEVICE_ADDR : Nat := 0x12

/-- The device-address selection in `APC1.__init__`:
`self.device_addr = device_addr or self._DEFAULT_DEVICE_ADDR`.
`none` models passing `None` (the default); Python `or` also treats the
integer `0` as falsy, so `some 0` falls back to the default address. -/
def init_device_addr (device_addr : Option Nat) : Nat :=
  match device_addr with
  | none => DEFAULT_DEVICE_ADDR
  | some n => if n = 0 then DEFAULT_DEVICE_ADDR else n

/-- The two failure kinds of the decode path, as the spec names them.
Both are `ValueError`s in the Python source; the raise site for a name
missing from the table is `UnknownRegister`, the raise site for a byte
count differing from the declared width is `ShortRead` (carrying the
expected and the actual count, as the error message does). -/
inductive APCError where
  | UnknownRegister (name : String)
  | ShortRead (expected got : Nat)
deriving Repr, DecidableEq

/-- Big-endian interpretation of a byte sequence, as
`int.from_bytes(raw_data, 'big')` computes it. -/
def fromBytesBE (bs : List Nat) : Nat :=
  bs.foldl (fun acc b => acc * 256 + b) 0

/-- `APC1.get_sensor_data`: look the register name up in the map (the
dictionary comprehension keyed by name), fail with `UnknownRegister` if
absent; otherwise issue one read of the declared width at the declared
address, fail with `ShortRead` if the returned byte count differs from
the declared width, and otherwise return
`(int.from_bytes(raw, 'big') * scale, unit, description)`.
The second component of the result lists the `(address, numBytes)` read
requests issued (the body performs at most one). -/
def get_sensor_data (read : Nat → Nat → List Nat) (register_name : String) :
    Except APCError (ℚ × String × String) × List (Nat × Nat) :=
  match REG_MAP.find? (fun r => r.name == register_name) with
  | none => (Except.error (APCError.UnknownRegister register_name), [])
  | some r =>
    let raw_data := read r.address r.numBytes
    if raw_data.length ≠ r.numBytes then
      (Except.error (APCError.ShortRead r.numBytes raw_data.length),
        [(r.address, r.numBytes)])
    else
      (Except.ok ((fromBytesBE raw_data : ℚ) * r.scale, r.unit, r.description),
        [(r.address, r.numBytes)])

/-- One value of the dictionary built by `APC1.get_all_sensor_data`:
the keys `value`, `unit` and `description`. -/
structure SensorEntry where
  value : ℚ
  unit : String
  description : String
deriving Repr, DecidableEq

/-- The loop body of `APC1.get_all_sensor_data` over a remaining suffix of
the register map: decode each register by name in table order,
accumulating `name ↦ {value, unit, description}`; an exception raised by
`get_sensor_data` propagates at once, discarding the dictionary built so
far.  The second component again accumulates the read requests issued. -/
def getAllAux (read : Nat → Nat → List Nat) :
    List RegInfo → Except APCError (List (String × SensorEntry)) × List (Nat × Nat)
  | [] => (Except.ok [], [])
  | r :: rest =>
    match get_sensor_data read r.name with
    | (Except.error e, tr) => (Except.error e, tr)
    | (Except.ok (v, u, d), tr) =>
      match getAllAux read rest with
      | (Except.error e, tr2) => (Except.error e, tr ++ tr2)
      | (Except.ok entries, tr2) =>
        (Except.ok ((r.name, SensorEntry.mk v u d) :: entries), tr ++ tr2)

/-- `APC1.get_all_sensor_data`: decode every register of the map. -/
def get_all_sensor_data (read : Nat → Nat → List Nat) :
    Except APCError (List (String × SensorEntry)) × List (Nat × Nat) :=
  getAllAux read REG_MAP

/-- Register names are pairwise distinct, so the by-name lookup of
`get_sensor_data` finds exactly the row of the queried name. -/
lemma find_name_self : ∀ r ∈ REG_MAP,
    REG_MAP.find? (fun x => x.name == r.name) = some r := by
  intro r hr
  fin_cases hr <;> rfl

/-- Decoding a row of the table when the bus returns exactly the declared
number of bytes: one read is issued and the scaled value is returned. -/
lemma get_sensor_data_ok (read : Nat → Nat → List Nat) (r : RegInfo)
    (hr : r ∈ REG_MAP)
    (hlen : (read r.address r.numBytes).length = r.numBytes) :
    get_sensor_data read r.name =
      (Except.ok ((fromBytesBE (read r.address r.numBytes) : ℚ) * r.scale,
        r.unit, r.description), [(r.address, r.numBytes)]) := by
  unfold get_sensor_data
  rw [find_name_self r hr]
  simp [hlen]

/-- Decoding a row of the table when the bus returns a byte count that
differs from the declared width: one read is issued and the decode fails
with `ShortRead`. -/
lemma get_sensor_data_err (read : Nat → Nat → List Nat) (r : RegInfo)
    (hr : r ∈ REG_MAP)
    (hfail : (read r.address r.numBytes).length ≠ r.numBytes) :
    get_sensor_data read r.name =
      (Except.error (APCError.ShortRead r.numBytes (read r.address r.numBytes).length),
        [(r.address, r.numBytes)]) := by
  unfold get_sensor_data
  rw [find_name_self r hr]
  simp [hfail]

/-- When every read over a suffix of the table succeeds, the accumulation
loop of `get_all_sensor_data` produces one entry per row, in table order,
and issues one read per row. -/
lemma getAllAux_ok (read : Nat → Nat → List Nat) (l : List RegInfo)
    (hmem : ∀ r ∈ l, r ∈ REG_MAP)
    (hlen : ∀ r ∈ l, (read r.address r.numBytes).length = r.numBytes) :
    getAllAux read l =
      (Except.ok (l.map fun r =>
        (r.name, SensorEntry.mk ((fromBytesBE (read r.address r.numBytes) : ℚ) * r.scale)
          r.unit r.description)),
       l.map fun r => (r.address, r.numBytes)) := by
  induction l with
  | nil => rfl
  | cons r rest ih =>
    have hok := get_sensor_data_ok read r (hmem r (List.mem_cons_self _ _))
      (hlen r (List.mem_cons_self _ _))
    have ihr := ih (fun s hs => hmem s (List.mem_cons_of_mem _ hs))
      (fun s hs => hlen s (List.mem_cons_of_mem _ hs))
    simp only [getAllAux, hok, ihr, List.map_cons, List.singleton_append]

/-- If every row before `r` decodes successfully and the read for `r`
returns the wrong byte count, the accumulation loop stops at `r`: it
returns the `ShortRead` error (discarding all entries built so far) and
the reads issued are exactly those for the earlier rows and for `r`
itself; no row after `r` is read. -/
lemma getAllAux_first_error (read : Nat → Nat → List Nat)
    (l1 : List RegInfo) (r : RegInfo) (l2 : List RegInfo)
    (hmem : ∀ s ∈ l1, s ∈ REG_MAP)
    (hok : ∀ s ∈ l1, (read s.address s.numBytes).length = s.numBytes)
    (hr : r ∈ REG_MAP)
    (hfail : (read r.address r.numBytes).length ≠ r.numBytes) :
    getAllAux read (l1 ++ r :: l2) =
      (Except.error (APCError.ShortRead r.numBytes (read r.address r.numBytes).length),
       (l1.map fun s => (s.address, s.numBytes)) ++ [(r.address, r.numBytes)]) := by
  induction l1 with
  | nil =>
    have herr := get_sensor_data_err read r hr hfail
    simp only [List.nil_append, getAllAux, herr, List.map_nil]
  | cons s rest ih =>
    have hsok := get_sensor_data_ok read s (hmem s (List.mem_cons_self _ _))
      (hok s (List.mem_cons_self _ _))
    have ihr := ih (fun x hx => hmem x (List.mem_cons_of_mem _ hx))
      (fun x hx => hok x (List.mem_cons_of_mem _ hx))
    simp only [List.cons_append, getAllAux, hsok, List.append_eq, ihr, List.map_cons,
      List.singleton_append, List.nil_append]

end APC1

/-- C8: the register table is a fixed constant with exactly 10 entries;
every byte width is 1 or 2; every register address lies in 0x04–0x3A.
In this pure embedding the table is a closed top-level constant and every
sensor operation is a pure function of it, so no operation can mutate it;
`get_reg_map` returns the table unchanged. -/
theorem reg_map_fixed_table :
    APC1.REG_MAP.length = 10 ∧
    (∀ r ∈ APC1.REG_MAP, r.numBytes = 1 ∨ r.numBytes = 2) ∧
    (∀ r ∈ APC1.REG_MAP, 0x04 ≤ r.address ∧ r.address ≤ 0x3A) ∧
    APC1.get_reg_map = APC1.REG_MAP := by
  refine ⟨rfl, by decide, by decide, rfl⟩

/-- C10: the constructor's device-address selection uses Python truthiness:
passing `0` (falsy) selects the default address 0x12, exactly as passing
`None` does; any non-zero argument is selected verbatim; consequently the
I2C address 0 can never be selected through the constructor. -/
theorem init_device_addr_truthy :
    APC1.init_device_addr (some 0) = 0x12 ∧
    (∀ n : Nat, n ≠ 0 → APC1.init_device_addr (some n) = n) ∧
    APC1.init_device_addr none = 0x12 ∧
    (∀ a : Option Nat, APC1.init_device_addr a ≠ 0) := by
  refine ⟨rfl, ?_, rfl, ?_⟩
  · intro n hn
    simp [APC1.init_device_addr, hn]
  · intro a
    cases a with
    | none => decide
    | some n =>
      by_cases hn : n = 0 <;> simp [APC1.init_device_addr, hn, APC1.DEFAULT_DEVICE_ADDR]

/-- Witness for C10 at the concrete argument 5: a non-zero device address
is selected verbatim. -/
theorem init_device_addr_truthy_witness :
    APC1.init_device_addr (some 5) = 5 :=
  init_device_addr_truthy.2.1 5 (by decide)

/-- C1: for every register descriptor in the table, decoding a returned
byte sequence of exactly the declared width yields the big-endian
unsigned-integer value of the bytes multiplied by the descriptor's scale;
in particular at scale 0.1 the bytes 0x00 0x64 decode to exactly 10. -/
theorem get_sensor_data_decodes (r : APC1.RegInfo) (hr : r ∈ APC1.REG_MAP)
    (read : Nat → Nat → List Nat)
    (hlen : (read r.address r.numBytes).length = r.numBytes) :
    (APC1.get_sensor_data read r.name).1 =
      Except.ok ((APC1.fromBytesBE (read r.address r.numBytes) : ℚ) * r.scale,
        r.unit, r.description) ∧
    (APC1.get_sensor_data (fun _ _ => [0x00, 0x64]) "T-comp").1 =
      Except.ok ((10 : ℚ), "C", "Compensated Temperature") := by
  constructor
  · rw [APC1.get_sensor_data_ok read r hr hlen]
  · have hfind : APC1.REG_MAP.find? (fun x => x.name == "T-comp") =
        some ⟨"T-comp", 0x22, 2, 1/10, "C", "Compensated Temperature"⟩ := rfl
    unfold APC1.get_sensor_data
    rw [hfind]
    norm_num [APC1.fromBytesBE]

/-- Witness for C1: the first table row (scale 1) decodes bytes
0x00 0x64 to 100, and a scale-0.1 row decodes the same bytes to 10. -/
theorem get_sensor_data_decodes_witness :
    (APC1.get_sensor_data (fun _ _ => [0x00, 0x64]) "PM1.0").1 =
      Except.ok ((100 : ℚ), "ug/m3", "PM1.0 Mass Concentration") ∧
    (APC1.get_sensor_data (fun _ _ => [0x00, 0x64]) "T-comp").1 =
      Except.ok ((10 : ℚ), "C", "Compensated Temperature") := by
  have h := get_sensor_data_decodes
    ⟨"PM1.0", 0x04, 2, 1, "ug/m3", "PM1.0 Mass Concentration"⟩
    (by unfold APC1.REG_MAP; exact List.mem_cons_self _ _)
    (fun _ _ => [0x00, 0x64]) rfl
  refine ⟨?_, h.2⟩
  have h1 := h.1
  norm_num [APC1.fromBytesBE] at h1
  exact h1

/-- C2: for every register in the table, if the read returns a byte
sequence whose length differs from the declared width (shorter or
longer), the decode fails with `ShortRead` and returns no value. -/
theorem get_sensor_data_short_read (r : APC1.RegInfo) (hr : r ∈ APC1.REG_MAP)
    (read : Nat → Nat → List Nat)
    (hlen : (read r.address r.numBytes).length ≠ r.numBytes) :
    (APC1.get_sensor_data read r.name).1 =
      Except.error
        (APC1.APCError.ShortRead r.numBytes (read r.address r.numBytes).length) := by
  rw [APC1.get_sensor_data_err read r hr hlen]

/-- Witness for C2: reading one byte for the two-byte register PM1.0
fails with `ShortRead 2 1`. -/
theorem get_sensor_data_short_read_witness :
    (APC1.get_sensor_data (fun _ _ => [7]) "PM1.0").1 =
      Except.error (APC1.APCError.ShortRead 2 1) :=
  get_sensor_data_short_read
    ⟨"PM1.0", 0x04, 2, 1, "ug/m3", "PM1.0 Mass Concentration"⟩
    (by unfold APC1.REG_MAP; exact List.mem_cons_self _ _)
    (fun _ _ => [7]) (by decide)

/-- C3: for every register name absent from the table, the decode fails
with `UnknownRegister` and issues no I2C read (the read trace is empty),
regardless of what the bus would return. -/
theorem get_sensor_data_unknown_register (read : Nat → Nat → List Nat)
    (name : String) (h : ∀ r ∈ APC1.REG_MAP, r.name ≠ name) :
    APC1.get_sensor_data read name =
      (Except.error (APC1.APCError.UnknownRegister name), []) := by
  unfold APC1.get_sensor_data
  have hfind : APC1.REG_MAP.find? (fun r => r.name == name) = none := by
    apply List.find?_eq_none.mpr
    intro x hx
    simp [h x hx]
  rw [hfind]

/-- Witness for C3: the name PM3.0 is not in the table; looking it up
fails with `UnknownRegister` and the read trace is empty. -/
theorem get_sensor_data_unknown_register_witness :
    APC1.get_sensor_data (fun _ _ => []) "PM3.0" =
      (Except.error (APC1.APCError.UnknownRegister "PM3.0"), []) :=
  get_sensor_data_unknown_register (fun _ _ => []) "PM3.0" (by decide)

/-- C4: when every per-register read succeeds, `get_all_sensor_data`
returns a mapping with exactly one entry per row of the table, keyed by
register name and in table order, each entry holding exactly the value,
unit and description that the per-register decode produces for that
name (second conjunct); one read is issued per row. -/
theorem get_all_sensor_data_complete (read : Nat → Nat → List Nat)
    (hlen : ∀ r ∈ APC1.REG_MAP, (read r.address r.numBytes).length = r.numBytes) :
    APC1.get_all_sensor_data read =
      (Except.ok (APC1.REG_MAP.map fun r =>
        (r.name, APC1.SensorEntry.mk
          ((APC1.fromBytesBE (read r.address r.numBytes) : ℚ) * r.scale)
          r.unit r.description)),
       APC1.REG_MAP.map fun r => (r.address, r.numBytes)) ∧
    (∀ r ∈ APC1.REG_MAP, (APC1.get_sensor_data read r.name).1 =
      Except.ok ((APC1.fromBytesBE (read r.address r.numBytes) : ℚ) * r.scale,
        r.unit, r.description)) := by
  constructor
  · exact APC1.getAllAux_ok read APC1.REG_MAP (fun _ h => h) hlen
  · intro r hr
    rw [APC1.get_sensor_data_ok read r hr (hlen r hr)]

/-- Witness for C4: a bus that answers every read with the right number
of zero bytes yields the full ten-entry mapping, every value 0. -/
theorem get_all_sensor_data_complete_witness :
    (APC1.get_all_sensor_data (fun _ n => List.replicate n 0)).1 =
      Except.ok [
        ("PM1.0", ⟨0, "ug/m3", "PM1.0 Mass Concentration"⟩),
        ("PM2.5", ⟨0, "ug/m3", "PM2.5 Mass Concentration"⟩),
        ("PM10", ⟨0, "ug/m3", "PM10 Mass Concentration"⟩),
        ("TVOC", ⟨0, "ppb", "TVOC output"⟩),
        ("eCO2", ⟨0, "ppm", "Output in ppm CO2 equivalents"⟩),
        ("T-comp", ⟨0, "C", "Compensated Temperature"⟩),
        ("RH-comp", ⟨0, "%", "Compensated Relative Humidity"⟩),
        ("T-raw", ⟨0, "C", "Raw Temperature"⟩),
        ("RH-raw", ⟨0, "%", "Raw Relative Humidity"⟩),
        ("AQI", ⟨0, "", "AQI according to TVOC value"⟩)] := by
  have h := (get_all_sensor_data_complete (fun _ n => List.replicate n 0)
    (by decide)).1
  rw [h]
  simp [APC1.REG_MAP, APC1.fromBytesBE, List.replicate]

/-- C9: if the read for some register returns the wrong byte count while
every register before it in the table decoded successfully, the bulk
operation returns the `ShortRead` error and no mapping: the entries
already decoded are discarded, and the reads issued are exactly those for
the earlier rows and the failing row, so no later register is read. -/
theorem get_all_sensor_data_aborts (read : Nat → Nat → List Nat)
    (l1 : List APC1.RegInfo) (r : APC1.RegInfo) (l2 : List APC1.RegInfo)
    (hsplit : APC1.REG_MAP = l1 ++ r :: l2)
    (hok : ∀ s ∈ l1, (read s.address s.numBytes).length = s.numBytes)
    (hfail : (read r.address r.numBytes).length ≠ r.numBytes) :
    APC1.get_all_sensor_data read =
      (Except.error
        (APC1.APCError.ShortRead r.numBytes (read r.address r.numBytes).length),
       (l1.map fun s => (s.address, s.numBytes)) ++ [(r.address, r.numBytes)]) := by
  have hmem : ∀ s ∈ l1, s ∈ APC1.REG_MAP := by
    intro s hs
    rw [hsplit]
    exact List.mem_append_left _ hs
  have hr : r ∈ APC1.REG_MAP := by
    rw [hsplit]
    exact List.mem_append_right _ (List.mem_cons_self _ _)
  unfold APC1.get_all_sensor_data
  rw [hsplit]
  exact APC1.getAllAux_first_error read l1 r l2 hmem hok hr hfail

/-- Witness for C9: a bus that returns no bytes makes the very first
register (PM1.0, two bytes expected) fail; the bulk decode returns only
the `ShortRead` error and the single read issued is for address 0x04. -/
theorem get_all_sensor_data_aborts_witness :
    APC1.get_all_sensor_data (fun _ _ => []) =
      (Except.error (APC1.APCError.ShortRead 2 0), [(0x04, 2)]) := by
  have h := get_all_sensor_data_aborts (fun _ _ => []) []
    ⟨"PM1.0", 0x04, 2, 1, "ug/m3", "PM1.0 Mass Concentration"⟩
    APC1.REG_MAP.tail rfl (by simp) (by decide)
  simpa using h

namespace Main

/-- The attempt budget `max_attempts` of `connect_wifi` in `main.py`. -/
def max_attempts : Nat := 10

/-- Outcome of `connect_wifi`, instrumented with the number of
`wlan.isconnected()` polls made by the `while` loop and the number of
one-second `time.sleep(1)` waits performed.  `failed` models raising
`WifiConnectionError`. -/
inductive WifiOutcome where
  | connected (polls sleeps : Nat)
  | failed (polls sleeps : Nat)
deriving Repr, DecidableEq

/-- The `while not wlan.isconnected()` loop of `connect_wifi`.
`isc k` is the value of the k-th `isconnected()` call (`isc 0` being the
initial check before the loop).  Each iteration polls once; on a failed
poll it sleeps one second, increments `curr_attempt`, and raises
`WifiConnectionError` when `curr_attempt >= max_attempts`.  The fuel
argument is `max_attempts - curr_attempt`, so the raise condition
`curr_attempt + 1 >= max_attempts` is fuel = 1; fuel 0 is unreachable
from the entry value `max_attempts` and kept only as the matching
default. -/
def connectLoop (isc : Nat → Bool) : Nat → Nat → Nat → WifiOutcome
  | 0, polls, sleeps => WifiOutcome.failed polls sleeps
  | r + 1, polls, sleeps =>
    if isc (polls + 1) then WifiOutcome.connected (polls + 1) sleeps
    else if r = 0 then WifiOutcome.failed (polls + 1) (sleeps + 1)
    else connectLoop isc r (polls + 1) (sleeps + 1)

/-- `connect_wifi` of `main.py`: if the initial `isconnected()` check
succeeds the function returns at once (no poll, no sleep); otherwise it
calls `wlan.connect(...)` and enters the polling loop with
`curr_attempt = 0`. -/
def connect_wifi (isc : Nat → Bool) : WifiOutcome :=
  if isc 0 then WifiOutcome.connected 0 0
  else connectLoop isc max_attempts 0 0

/-- One-step unfolding of the loop at zero fuel. -/
lemma connectLoop_zero (isc : Nat → Bool) (polls sleeps : Nat) :
    connectLoop isc 0 polls sleeps = WifiOutcome.failed polls sleeps := rfl

/-- One-step unfolding of the loop at positive fuel. -/
lemma connectLoop_succ (isc : Nat → Bool) (r polls sleeps : Nat) :
    connectLoop isc (r + 1) polls sleeps =
      if isc (polls + 1) then WifiOutcome.connected (polls + 1) sleeps
      else if r = 0 then WifiOutcome.failed (polls + 1) (sleeps + 1)
      else connectLoop isc r (polls + 1) (sleeps + 1) := rfl

/-- When every poll in the window fails, the loop performs exactly `f`
polls and `f` sleeps and then raises. -/
lemma connectLoop_fail_of_all (isc : Nat → Bool) :
    ∀ f polls sleeps, 1 ≤ f →
    (∀ k, polls + 1 ≤ k → k ≤ polls + f → isc k = false) →
    connectLoop isc f polls sleeps = WifiOutcome.failed (polls + f) (sleeps + f)
  | 0, _, _, h1, _ => absurd h1 (by decide)
  | 1, polls, sleeps, _, hall => by
    have h : isc (polls + 1) = false := hall (polls + 1) (Nat.le_refl _) (Nat.le_refl _)
    rw [connectLoop_succ, if_neg (by simp [h]), if_pos rfl]
  | (r + 2), polls, sleeps, _, hall => by
    have h : isc (polls + 1) = false := hall (polls + 1) (Nat.le_refl _) (by omega)
    have ih := connectLoop_fail_of_all isc (r + 1) (polls + 1) (sleeps + 1)
      (Nat.succ_le_succ (Nat.zero_le r))
      (fun k hk1 hk2 => hall k (by omega) (by omega))
    rw [connectLoop_succ, if_neg (by simp [h]), if_neg (Nat.succ_ne_zero r), ih]
    congr 1 <;> omega

/-- Inversion for a raised `WifiConnectionError`: the loop raised only
after exactly `f` failed polls and `f` sleeps, every poll in the window
having returned false. -/
lemma connectLoop_failed_inv (isc : Nat → Bool) :
    ∀ f polls sleeps p s, 1 ≤ f →
    connectLoop isc f polls sleeps = WifiOutcome.failed p s →
    p = polls + f ∧ s = sleeps + f ∧
      ∀ k, polls + 1 ≤ k → k ≤ polls + f → isc k = false
  | 0, _, _, _, _, h1, _ => absurd h1 (by decide)
  | 1, polls, sleeps, p, s, _, h => by
    rw [connectLoop_succ] at h
    by_cases hc : isc (polls + 1) = true
    · rw [if_pos hc] at h
      simp at h
    · simp only [Bool.not_eq_true] at hc
      rw [if_neg (by simp [hc]), if_pos rfl, WifiOutcome.failed.injEq] at h
      obtain ⟨hp, hs⟩ := h
      refine ⟨by omega, by omega, ?_⟩
      intro k hk1 hk2
      have hk : k = polls + 1 := by omega
      rw [hk]
      exact hc
  | (r + 2), polls, sleeps, p, s, _, h => by
    rw [connectLoop_succ] at h
    by_cases hc : isc (polls + 1) = true
    · rw [if_pos hc] at h
      simp at h
    · simp only [Bool.not_eq_true] at hc
      rw [if_neg (by simp [hc]), if_neg (Nat.succ_ne_zero r)] at h
      obtain ⟨hip, his, hrange⟩ := connectLoop_failed_inv isc (r + 1) (polls + 1)
        (sleeps + 1) p s (Nat.succ_le_succ (Nat.zero_le r)) h
      refine ⟨by omega, by omega, ?_⟩
      intro k hk1 hk2
      by_cases hk : k = polls + 1
      · rw [hk]; exact hc
      · exact hrange k (by omega) (by omega)

/-- Inversion for a successful connection: the loop connected at some
poll `p` within the window, after `p - polls - 1` additional sleeps, and
that poll returned true. -/
lemma connectLoop_connected_inv (isc : Nat → Bool) :
    ∀ f polls sleeps p s,
    connectLoop isc f polls sleeps = WifiOutcome.connected p s →
    polls + 1 ≤ p ∧ p ≤ polls + f ∧ s = sleeps + (p - polls - 1) ∧ isc p = true
  | 0, polls, sleeps, p, s, h => by
    rw [connectLoop_zero] at h
    simp at h
  | (r + 1), polls, sleeps, p, s, h => by
    rw [connectLoop_succ] at h
    by_cases hc : isc (polls + 1) = true
    · rw [if_pos hc, WifiOutcome.connected.injEq] at h
      obtain ⟨hp, hs⟩ := h
      refine ⟨by omega, by omega, by omega, ?_⟩
      rw [← hp]
      exact hc
    · simp only [Bool.not_eq_true] at hc
      by_cases hr : r = 0
      · subst hr
        rw [if_neg (by simp [hc]), if_pos rfl] at h
        simp at h
      · rw [if_neg (by simp [hc]), if_neg hr] at h
        obtain ⟨hp1, hp2, hs, hisc⟩ := connectLoop_connected_inv isc r (polls + 1)
          (sleeps + 1) p s h
        exact ⟨by omega, by omega, by omega, hisc⟩

end Main

/-- C5: when not already connected, `connect_wifi` polls the connection
status at most 10 times, sleeping one second after each failed poll
(p - 1 sleeps before a success at poll p, one sleep after each of the 10
failed polls before the raise), and raises `WifiConnectionError` exactly
when all 10 polls of the budget fail. -/
theorem connect_wifi_budget (isc : Nat → Bool) (h0 : isc 0 = false) :
    (∀ p s, Main.connect_wifi isc = Main.WifiOutcome.failed p s → p = 10 ∧ s = 10) ∧
    ((∃ p s, Main.connect_wifi isc = Main.WifiOutcome.failed p s) ↔
      ∀ k, 1 ≤ k → k ≤ 10 → isc k = false) ∧
    (∀ p s, Main.connect_wifi isc = Main.WifiOutcome.connected p s →
      1 ≤ p ∧ p ≤ 10 ∧ s = p - 1 ∧ isc p = true) := by
  have hcw : Main.connect_wifi isc = Main.connectLoop isc 10 0 0 := by
    simp [Main.connect_wifi, Main.max_attempts, h0]
  refine ⟨?_, ⟨?_, ?_⟩, ?_⟩
  · intro p s h
    rw [hcw] at h
    have := Main.connectLoop_failed_inv isc 10 0 0 p s (by omega) h
    exact ⟨by omega, by omega⟩
  · rintro ⟨p, s, h⟩ k hk1 hk10
    rw [hcw] at h
    have := Main.connectLoop_failed_inv isc 10 0 0 p s (by omega) h
    exact this.2.2 k (by omega) (by omega)
  · intro hall
    refine ⟨10, 10, ?_⟩
    rw [hcw]
    have := Main.connectLoop_fail_of_all isc 10 0 0 (by omega)
      (fun k hk1 hk2 => hall k (by omega) (by omega))
    simpa using this
  · intro p s h
    rw [hcw] at h
    have := Main.connectLoop_connected_inv isc 10 0 0 p s h
    exact ⟨by omega, by omega, by omega, this.2.2.2⟩

/-- Witness for C5: with a status that never reports connected, the
bootstrap raises after exactly 10 polls and 10 one-second waits. -/
theorem connect_wifi_budget_witness :
    Main.connect_wifi (fun _ => false) = Main.WifiOutcome.failed 10 10 := by
  obtain ⟨p, s, h⟩ :=
    (connect_wifi_budget (fun _ => false) rfl).2.1.2 (fun _ _ _ => rfl)
  obtain ⟨hp, hs⟩ := (connect_wifi_budget (fun _ => false) rfl).1 p s h
  rw [hp, hs] at h
  exact h

namespace Main

/-- The two reachable states of the bootstrap phase of `main.py`. -/
inductive BootState where
  | connected
  | apMode
deriving Repr, DecidableEq

/-- The top-level bootstrap of `main.py`:
`try: connect_wifi() except WifiConnectionError: start_ap_mode()`.
A raised `WifiConnectionError` is caught and leads to AP mode; a
successful connection proceeds to serving the sensor page. -/
def bootstrap (isc : Nat → Bool) : BootState :=
  match connect_wifi isc with
  | WifiOutcome.failed _ _ => BootState.apMode
  | WifiOutcome.connected _ _ => BootState.connected

end Main

/-- C6: a `WifiConnectionError` raised by the connection attempt is
caught at the top level and leads to AP mode rather than propagating
(`bootstrap` is a total function into the two-state type); success leads
to the connected state; these two are the only possible outcomes of the
initial connection attempt. -/
theorem wifi_error_caught (isc : Nat → Bool) :
    (∀ p s, Main.connect_wifi isc = Main.WifiOutcome.failed p s →
      Main.bootstrap isc = Main.BootState.apMode) ∧
    (∀ p s, Main.connect_wifi isc = Main.WifiOutcome.connected p s →
      Main.bootstrap isc = Main.BootState.connected) ∧
    (Main.bootstrap isc = Main.BootState.apMode ∨
      Main.bootstrap isc = Main.BootState.connected) := by
  cases h : Main.connect_wifi isc with
  | connected p s =>
    refine ⟨fun p2 s2 hf => ?_, fun _ _ _ => ?_, Or.inr ?_⟩
    · simp at hf
    · simp [Main.bootstrap, h]
    · simp [Main.bootstrap, h]
  | failed p s =>
    refine ⟨fun _ _ _ => ?_, fun p2 s2 hc => ?_, Or.inl ?_⟩
    · simp [Main.bootstrap, h]
    · simp at hc
    · simp [Main.bootstrap, h]

/-- Witness for C6: a never-connecting status ends in AP mode; an
immediately-connected status ends in the connected state. -/
theorem wifi_error_caught_witness :
    Main.bootstrap (fun _ => false) = Main.BootState.apMode ∧
    Main.bootstrap (fun _ => true) = Main.BootState.connected := by
  constructor
  · exact (wifi_error_caught (fun _ => false)).1 10 10 (by decide)
  · exact (wifi_error_caught (fun _ => true)).2.1 0 0 (by decide)

namespace Main

/-- The single-quote character that the f-strings of
`save_wifi_credentials` wrap the two values in. -/
def quoteChar : Char := Char.ofNat 39

/-- `save_wifi_credentials` of `main.py` at the character level: the file
`wifi_config.py` is opened in mode w (wholesale overwrite of the previous
contents) and receives exactly the two writes
`SSID = '<ssid>'\n` and `PASSWORD = '<password>'\n`, the two fields
interpolated verbatim with no escaping. -/
def save_chars (ssid password : List Char) : List Char :=
  ("SSID = ".data ++ quoteChar :: (ssid ++ [quoteChar, '\n'])) ++
    ("PASSWORD = ".data ++ quoteChar :: (password ++ [quoteChar, '\n']))

/-- `save_wifi_credentials` on strings: the full new contents of the
config artifact. -/
def save_wifi_credentials (ssid password : String) : String :=
  String.mk (save_chars ssid.data password.data)

/-- Modelled from the spec: the config artifact is reloaded at the next
startup by the import `from wifi_config import SSID, PASSWORD`, i.e. by
the language runtime parsing the quoted-string assignment; that parser is
not part of this repository.  A single-quoted literal is read up to the
next quote character; a backslash (which the runtime would interpret as
an escape) or a raw newline (which the runtime would reject inside a
single-quoted literal) makes the read fail. -/
def parseQuoted : List Char → Option (List Char × List Char)
  | [] => none
  | c :: rest =>
    if c = quoteChar then some ([], rest)
    else if c = '\\' ∨ c = '\n' then none
    else (parseQuoted rest).map (fun vr => (c :: vr.1, vr.2))

/-- Reading a fixed expected prefix off the artifact, returning the
remainder. -/
def dropExpect : List Char → List Char → Option (List Char)
  | [], cs => some cs
  | _ :: _, [] => none
  | e :: es, c :: cs => if c = e then dropExpect es cs else none

/-- Modelled from the spec: loading the persisted config at next startup.
The artifact must have exactly the shape
`SSID = '<v1>'\nPASSWORD = '<v2>'\n` with well-formed single-quoted
literals; the loaded credentials are then `(v1, v2)`. -/
def load_wifi_config (content : String) : Option (String × String) :=
  (dropExpect ("SSID = ".data ++ [quoteChar]) content.data).bind fun cs1 =>
  (parseQuoted cs1).bind fun sr =>
  (dropExpect ('\n' :: ("PASSWORD = ".data ++ [quoteChar])) sr.2).bind fun cs3 =>
  (parseQuoted cs3).bind fun pr =>
  if pr.2 = ['\n'] then some (String.mk sr.1, String.mk pr.1) else none

/-- Reading an expected prefix off itself followed by anything succeeds
and returns the remainder. -/
lemma dropExpect_append : ∀ e cs : List Char, dropExpect e (e ++ cs) = some cs
  | [], _ => rfl
  | c :: es, cs => by simp [dropExpect, dropExpect_append es cs]

/-- A quote-, backslash- and newline-free value followed by a closing
quote parses back to exactly that value. -/
lemma parseQuoted_append : ∀ v rest : List Char,
    (∀ c ∈ v, c ≠ quoteChar ∧ c ≠ '\\' ∧ c ≠ '\n') →
    parseQuoted (v ++ quoteChar :: rest) = some (v, rest)
  | [], rest, _ => by simp [parseQuoted]
  | c :: v, rest, hv => by
    obtain ⟨h1, h2, h3⟩ := hv c (List.mem_cons_self _ _)
    have ih := parseQuoted_append v rest (fun x hx => hv x (List.mem_cons_of_mem _ hx))
    simp [parseQuoted, h1, h2, h3, ih]

/-- Round trip at the character level: saving a quote-, backslash- and
newline-free pair and reloading the artifact yields the pair verbatim. -/
lemma load_save_chars (s p : List Char)
    (hs : ∀ c ∈ s, c ≠ quoteChar ∧ c ≠ '\\' ∧ c ≠ '\n')
    (hp : ∀ c ∈ p, c ≠ quoteChar ∧ c ≠ '\\' ∧ c ≠ '\n') :
    load_wifi_config (String.mk (save_chars s p)) =
      some (String.mk s, String.mk p) := by
  have e1 : save_chars s p =
      ("SSID = ".data ++ [quoteChar]) ++
        (s ++ quoteChar :: '\n' ::
          (("PASSWORD = ".data ++ [quoteChar]) ++ (p ++ quoteChar :: ['\n']))) := by
    simp [save_chars]
  have e2 : ('\n' : Char) ::
        (("PASSWORD = ".data ++ [quoteChar]) ++ (p ++ quoteChar :: ['\n'])) =
      ('\n' :: ("PASSWORD = ".data ++ [quoteChar])) ++ (p ++ quoteChar :: ['\n']) := by
    simp
  rw [load_wifi_config]
  show (dropExpect ("SSID = ".data ++ [quoteChar]) (save_chars s p)).bind _ = _
  rw [e1, dropExpect_append]
  simp only [Option.some_bind']
  rw [parseQuoted_append s _ hs]
  simp only [Option.some_bind']
  rw [e2, dropExpect_append]
  simp only [Option.some_bind']
  rw [parseQuoted_append p _ hp]
  simp only [Option.some_bind']
  simp

end Main

/-- Counterexample to C7 as stated: for the SSID a'b — which contains a
single quote — the persisted artifact contains the malformed assignment
line `SSID = 'a'b'`, and reloading the artifact does not yield the
submitted pair. -/
theorem save_credentials_roundtrip_counterexample :
    Main.load_wifi_config
        (Main.save_wifi_credentials (String.mk ['a', Main.quoteChar, 'b']) "pw") ≠
      some (String.mk ['a', Main.quoteChar, 'b'], "pw") := by
  decide

/-- C7 amended: the persistence operation writes both submitted fields
verbatim into the config artifact, overwriting the previous contents
wholesale (the saved artifact is a function of the two fields alone);
provided neither field contains a single quote, a backslash or a newline,
reloading the artifact at next startup yields exactly the submitted ssid
and password.  A field containing a quote makes the artifact malformed,
so the reload then fails to return the submitted pair (see the
counterexample above). -/
theorem save_credentials_roundtrip (ssid password : String)
    (hs : ∀ c ∈ ssid.data, c ≠ Main.quoteChar ∧ c ≠ '\\' ∧ c ≠ '\n')
    (hp : ∀ c ∈ password.data, c ≠ Main.quoteChar ∧ c ≠ '\\' ∧ c ≠ '\n') :
    Main.load_wifi_config (Main.save_wifi_credentials ssid password) =
      some (ssid, password) := by
  have h := Main.load_save_chars ssid.data password.data hs hp
  unfold Main.save_wifi_credentials
  rw [h]

/-- Witness for the amended C7 at a concrete quote-free pair. -/
theorem save_credentials_roundtrip_witness :
    Main.load_wifi_config (Main.save_wifi_credentials "mynet" "pass123") =
      some ("mynet", "pass123") :=
  save_credentials_roundtrip "mynet" "pass123" (by decide) (by decide)
